import Mathlib

/-!
Verification development for the stickerbot repository.

Shallow embedding of the parts of the code the claims touch:
- animatedStickerProcessor.js : validateTgsFile, validateWebmFile, processTgsFile
- utils.js : sanitizeStickerSetName
- stickerManager.js : generateStickerSetName
- imageProcessor.js : processImage, processImages (the sharp pipeline is
  modelled by its documented dimension semantics)
- databaseManager.js : withTransaction, addStickerPack, addStickerToDatabase,
  removeUserPack over an explicit relational state
- sessionManager.js : getSession, purgeSessions

Buffers of bytes are List Nat; machine timestamps are Int milliseconds;
probed media durations and frame rates are rationals.
-/

/-! ## animatedStickerProcessor.js : TGS validation -/

/-- TGS_SIZE_LIMIT = 64 * 1024 (64 KB for TGS files). -/
def TGS_SIZE_LIMIT : Nat := 64 * 1024

/-- validateTgsFile from animatedStickerProcessor.js: rejects buffers larger
than TGS_SIZE_LIMIT, then rejects buffers whose first two bytes are not the
gzip magic bytes 0x1F 0x8B (a read past the end of a JS Buffer yields
undefined, which compares unequal to the magic byte). -/
def validateTgsFile (buffer : List Nat) : Bool :=
  if TGS_SIZE_LIMIT < buffer.length then false
  else if ¬ (buffer[0]? = some 0x1F) ∨ ¬ (buffer[1]? = some 0x8B) then false
  else true

/-- processTgsFile from animatedStickerProcessor.js: validates and, on
success, stages the buffer unchanged (createTempFileFromBuffer writes the
bytes as given; no re-encoding happens). The staged file content is the
returned byte list. -/
def processTgsFile (buffer : List Nat) : Option (List Nat) :=
  if validateTgsFile buffer then some buffer else none

/-- C4: validateTgsFile rejects any buffer that does not begin with the two
gzip magic bytes 0x1F 0x8B, rejects any buffer longer than 64 KB, and
processTgsFile stages accepted buffers without re-encoding them. -/
theorem c4_validateTgsFile_spec (buffer : List Nat) :
    (¬ (buffer[0]? = some 0x1F ∧ buffer[1]? = some 0x8B) →
      validateTgsFile buffer = false)
    ∧ (TGS_SIZE_LIMIT < buffer.length → validateTgsFile buffer = false)
    ∧ (∀ out, processTgsFile buffer = some out → out = buffer) := by
  refine ⟨?_, ?_, ?_⟩
  · intro h
    unfold validateTgsFile
    rcases Decidable.em (TGS_SIZE_LIMIT < buffer.length) with hl | hl
    · simp [hl]
    · have : ¬ (buffer[0]? = some 0x1F) ∨ ¬ (buffer[1]? = some 0x8B) := by
        by_contra hc
        push_neg at hc
        exact h ⟨hc.1, hc.2⟩
      simp [hl, this]
  · intro h
    unfold validateTgsFile
    simp [h]
  · intro out hout
    unfold processTgsFile at hout
    rcases Decidable.em (validateTgsFile buffer = true) with hv | hv
    · simp [hv] at hout
      exact hout.symm
    · simp [hv] at hout

/-- C4 witness: a buffer with a bad magic byte is rejected, an oversized
buffer is rejected, and an accepted buffer is staged unchanged. -/
theorem c4_validateTgsFile_spec_witness :
    validateTgsFile [0] = false
    ∧ validateTgsFile (List.replicate 65537 31) = false
    ∧ ([31, 139] : List Nat) = [31, 139] :=
  ⟨(c4_validateTgsFile_spec [0]).1 (by decide),
   (c4_validateTgsFile_spec (List.replicate 65537 31)).2.1
     (by rw [List.length_replicate]; norm_num [TGS_SIZE_LIMIT]),
   (c4_validateTgsFile_spec [31, 139]).2.2 [31, 139] (by decide)⟩

/-! ## utils.js / stickerManager.js : pack slug generation -/

/-- sanitizeStickerSetName from utils.js: lowercase the input, drop every
character outside [a-z0-9], keep at most the first 40 characters
(toLowerCase modelled per character, replace /[^a-z0-9]/g with the empty
string, substring 0 40). -/
def sanitizeStickerSetName (input : String) : String :=
  String.mk (((input.data.map Char.toLower).filter
    (fun c => decide (('a' ≤ c ∧ c ≤ 'z') ∨ ('0' ≤ c ∧ c ≤ '9')))).take 40)

/-- generateStickerSetName from stickerManager.js. The call
Math.floor(Math.random() * 1000) is modelled by the randomSuffix argument;
ctx.botInfo.username is the botUsername argument. -/
def generateStickerSetName (botUsername : String) (title : String)
    (randomSuffix : Nat) : String :=
  sanitizeStickerSetName title ++ "_" ++ toString randomSuffix ++ "_by_"
    ++ botUsername

/-- Concrete title from the spec example. -/
def exampleTitle : String := "My Cool Pack!!"

/-- Concrete bot handle from the spec example. -/
def exampleHandle : String := "stickerbot"

/-- Small concrete title for the witness. -/
def smallTitle : String := "Ab"

/-- Small concrete bot handle for the witness. -/
def smallHandle : String := "bot"

/-- C7: the generated slug is the sanitized title (lowercased, characters
outside [a-z0-9] removed, truncated to 40) followed by an underscore, the
random draw in [0, 999], and the literal suffix _by_ plus the bot handle;
at title "My Cool Pack!!", handle "stickerbot" and draw 42 the result is
"mycoolpack_42_by_stickerbot". -/
theorem c7_generateStickerSetName_spec :
    (∀ (title handle : String) (r : Nat), r ≤ 999 →
      generateStickerSetName handle title r =
        sanitizeStickerSetName title ++ "_" ++ toString r ++ "_by_" ++ handle
      ∧ (sanitizeStickerSetName title).length ≤ 40
      ∧ ∀ c ∈ (sanitizeStickerSetName title).data,
          ('a' ≤ c ∧ c ≤ 'z') ∨ ('0' ≤ c ∧ c ≤ '9'))
    ∧ generateStickerSetName exampleHandle exampleTitle 42 =
        "mycoolpack_42_by_stickerbot" := by
  constructor
  · intro title handle r _
    refine ⟨rfl, List.length_take_le 40 _, ?_⟩
    intro c hc
    have hmem : c ∈ ((title.data.map Char.toLower).filter
        (fun c => decide (('a' ≤ c ∧ c ≤ 'z') ∨ ('0' ≤ c ∧ c ≤ '9')))) :=
      List.mem_of_mem_take hc
    exact of_decide_eq_true (List.mem_filter.mp hmem).2
  · decide

/-- C7 witness: concrete instantiation, with the draw bound discharged. -/
theorem c7_generateStickerSetName_spec_witness :
    generateStickerSetName smallHandle smallTitle 7 = "ab_7_by_bot" ∧
    generateStickerSetName exampleHandle exampleTitle 42 =
      "mycoolpack_42_by_stickerbot" :=
  ⟨((c7_generateStickerSetName_spec.1 smallTitle smallHandle 7
      (by decide)).1).trans (by decide),
   c7_generateStickerSetName_spec.2⟩

/-! ## animatedStickerProcessor.js : WebM validation -/

/-- WEBM_SIZE_LIMIT = 256 * 1024 (256 KB for WebM files). -/
def WEBM_SIZE_LIMIT : Nat := 256 * 1024

/-- The single video stream that ffprobe reports for the buffer. Its decimal
duration string is modelled as an exact rational; r_frame_rate is the
fraction num/den that ffprobe prints. -/
structure WebmStream where
  width : Nat
  height : Nat
  codecName : String
  duration : ℚ
  rFrameRateNum : Nat
  rFrameRateDen : Nat
deriving DecidableEq, Repr

/-- frameRate = parseInt(parts[0]) / parseInt(parts[1]) on r_frame_rate. -/
def webmFrameRate (s : WebmStream) : ℚ :=
  (s.rFrameRateNum : ℚ) / (s.rFrameRateDen : ℚ)

/-- Result shape of validateWebmFile: either invalid with a reason string,
or valid carrying the probed metadata. -/
inductive WebmValidation where
  | invalid (reason : String)
  | valid (metadata : WebmStream)
deriving DecidableEq, Repr

/-- Reason string of the codec check. -/
def reasonCodec : String := "Video codec must be VP9"

/-- Reason string of the size check. -/
def reasonTooLarge (len : Nat) : String :=
  "File too large (" ++ toString len ++ " bytes, max: "
    ++ toString WEBM_SIZE_LIMIT ++ " bytes)"

/-- Reason string of the duration check. -/
def reasonDuration (d : ℚ) : String :=
  "Duration too long (" ++ toString d ++ "s, max: 3s)"

/-- Reason string of the frame-rate check. -/
def reasonFrameRate (f : ℚ) : String :=
  "Frame rate too high (" ++ toString f ++ "fps, max: 30fps)"

/-- Reason string of the dimension check. -/
def reasonDimensions (w h : Nat) : String :=
  "Dimensions too large (" ++ toString w ++ "x" ++ toString h
    ++ ", max: 512x512)"

/-- Reason string when ffprobe reports no video stream. -/
def reasonNoStream : String := "No video stream found"

/-- validateWebmFile from animatedStickerProcessor.js. The ffprobe call is
external, so the probed stream (or its absence) is an input; the checks
array is walked in source order and the first failing check produces the
returned reason. -/
def validateWebmFile (bufferLen : Nat) (probe : Option WebmStream) :
    WebmValidation :=
  match probe with
  | none => .invalid reasonNoStream
  | some s =>
    if ¬ (s.codecName = "vp9") then .invalid reasonCodec
    else if ¬ (bufferLen ≤ WEBM_SIZE_LIMIT) then .invalid (reasonTooLarge bufferLen)
    else if ¬ (s.duration ≤ 3) then .invalid (reasonDuration s.duration)
    else if ¬ (webmFrameRate s ≤ 30) then .invalid (reasonFrameRate (webmFrameRate s))
    else if ¬ (s.width ≤ 512 ∧ s.height ≤ 512) then
      .invalid (reasonDimensions s.width s.height)
    else .valid s

/-- First two characters of a string, used to separate the reason strings. -/
def firstTwoChars (s : String) : List Char := s.data.take 2

lemma firstTwoChars_append (p x : String) (hp : 2 ≤ p.data.length) :
    firstTwoChars (p ++ x) = firstTwoChars p := by
  unfold firstTwoChars
  rw [String.data_append, List.take_append_eq_append_take,
    Nat.sub_eq_zero_of_le hp, List.take_zero, List.append_nil]

lemma firstTwoChars_reasonTooLarge (len : Nat) :
    firstTwoChars (reasonTooLarge len) = ['F', 'i'] := by
  unfold reasonTooLarge
  rw [String.append_assoc, String.append_assoc, String.append_assoc,
    firstTwoChars_append _ _ (by decide)]
  decide

lemma firstTwoChars_reasonDuration (d : ℚ) :
    firstTwoChars (reasonDuration d) = ['D', 'u'] := by
  unfold reasonDuration
  rw [String.append_assoc, firstTwoChars_append _ _ (by decide)]
  decide

lemma firstTwoChars_reasonFrameRate (f : ℚ) :
    firstTwoChars (reasonFrameRate f) = ['F', 'r'] := by
  unfold reasonFrameRate
  rw [String.append_assoc, firstTwoChars_append _ _ (by decide)]
  decide

lemma firstTwoChars_reasonDimensions (w h : Nat) :
    firstTwoChars (reasonDimensions w h) = ['D', 'i'] := by
  unfold reasonDimensions
  rw [String.append_assoc, String.append_assoc, String.append_assoc,
    firstTwoChars_append _ _ (by decide)]
  decide

lemma reason_ne_of_firstTwoChars {a b : String} {x y : List Char}
    (ha : firstTwoChars a = x) (hb : firstTwoChars b = y) (hxy : x ≠ y) :
    a ≠ b := by
  intro h
  exact hxy (ha ▸ hb ▸ congrArg firstTwoChars h)

/-- C3: for the video kind, validation fails whenever duration exceeds 3.0 s,
frame rate exceeds 30 fps, size exceeds 256 KB, the codec is not VP9, or a
dimension exceeds 512; the first failing check (in source order codec, size,
duration, frame rate, dimensions) supplies the reason, and the five reason
strings are pairwise distinct. -/
theorem c3_validateWebmFile_spec (len : Nat) (s : WebmStream) :
    ((3 < s.duration ∨ 30 < webmFrameRate s ∨ WEBM_SIZE_LIMIT < len
        ∨ s.codecName ≠ "vp9" ∨ 512 < s.width ∨ 512 < s.height) →
      ∃ r, validateWebmFile len (some s) = .invalid r)
    ∧ (s.codecName ≠ "vp9" →
        validateWebmFile len (some s) = .invalid reasonCodec)
    ∧ (s.codecName = "vp9" → WEBM_SIZE_LIMIT < len →
        validateWebmFile len (some s) = .invalid (reasonTooLarge len))
    ∧ (s.codecName = "vp9" → len ≤ WEBM_SIZE_LIMIT → 3 < s.duration →
        validateWebmFile len (some s) = .invalid (reasonDuration s.duration))
    ∧ (s.codecName = "vp9" → len ≤ WEBM_SIZE_LIMIT → s.duration ≤ 3 →
        30 < webmFrameRate s →
        validateWebmFile len (some s) =
          .invalid (reasonFrameRate (webmFrameRate s)))
    ∧ (s.codecName = "vp9" → len ≤ WEBM_SIZE_LIMIT → s.duration ≤ 3 →
        webmFrameRate s ≤ 30 → (512 < s.width ∨ 512 < s.height) →
        validateWebmFile len (some s) =
          .invalid (reasonDimensions s.width s.height))
    ∧ List.Pairwise (fun a b => a ≠ b)
        [reasonCodec, reasonTooLarge len, reasonDuration s.duration,
         reasonFrameRate (webmFrameRate s),
         reasonDimensions s.width s.height] := by
  have htl := firstTwoChars_reasonTooLarge len
  have hdu := firstTwoChars_reasonDuration s.duration
  have hfr := firstTwoChars_reasonFrameRate (webmFrameRate s)
  have hdi := firstTwoChars_reasonDimensions s.width s.height
  have hco : firstTwoChars reasonCodec = ['V', 'i'] := by decide
  refine ⟨?_, ?_, ?_, ?_, ?_, ?_, ?_⟩
  · intro h
    unfold validateWebmFile
    rcases Decidable.em (s.codecName = "vp9") with hc | hc
    · rcases Decidable.em (len ≤ WEBM_SIZE_LIMIT) with hl | hl
      · rcases Decidable.em (s.duration ≤ 3) with hd | hd
        · rcases Decidable.em (webmFrameRate s ≤ 30) with hf | hf
          · have hwh : ¬ (s.width ≤ 512 ∧ s.height ≤ 512) := by
              rcases h with h | h | h | h | h | h
              · exact absurd hd (not_le.mpr h)
              · exact absurd hf (not_le.mpr h)
              · exact absurd hl (not_le.mpr h)
              · exact absurd hc h
              · exact fun hp => absurd hp.1 (not_le.mpr h)
              · exact fun hp => absurd hp.2 (not_le.mpr h)
            simp only [hc, hl, hd, hf, hwh]
            simp
          · simp only [hc, hl, hd, hf]
            simp
        · simp only [hc, hl, hd]
          simp
      · simp only [hc, hl]
        simp
    · simp only [hc]
      simp
  · intro hc
    unfold validateWebmFile
    simp [hc]
  · intro hc hl
    unfold validateWebmFile
    simp [hc, hl, not_le.mpr hl]
  · intro hc hl hd
    unfold validateWebmFile
    simp [hc, hl, not_le.mpr hd]
  · intro hc hl hd hf
    unfold validateWebmFile
    simp [hc, hl, hd, not_le.mpr hf]
  · intro hc hl hd hf hwh
    have hwh2 : ¬ (s.width ≤ 512 ∧ s.height ≤ 512) := by
      rcases hwh with h | h
      · exact fun hp => absurd hp.1 (not_le.mpr h)
      · exact fun hp => absurd hp.2 (not_le.mpr h)
    unfold validateWebmFile
    simp [hc, hl, hd, hf, hwh2]
  · refine List.Pairwise.cons ?_ (List.Pairwise.cons ?_
      (List.Pairwise.cons ?_ (List.Pairwise.cons ?_ (List.pairwise_singleton _ _))))
    · intro b hb
      simp only [List.mem_cons, List.not_mem_nil, or_false] at hb
      rcases hb with rfl | rfl | rfl | rfl
      · exact reason_ne_of_firstTwoChars hco htl (by decide)
      · exact reason_ne_of_firstTwoChars hco hdu (by decide)
      · exact reason_ne_of_firstTwoChars hco hfr (by decide)
      · exact reason_ne_of_firstTwoChars hco hdi (by decide)
    · intro b hb
      simp only [List.mem_cons, List.not_mem_nil, or_false] at hb
      rcases hb with rfl | rfl | rfl
      · exact reason_ne_of_firstTwoChars htl hdu (by decide)
      · exact reason_ne_of_firstTwoChars htl hfr (by decide)
      · exact reason_ne_of_firstTwoChars htl hdi (by decide)
    · intro b hb
      simp only [List.mem_cons, List.not_mem_nil, or_false] at hb
      rcases hb with rfl | rfl
      · exact reason_ne_of_firstTwoChars hdu hfr (by decide)
      · exact reason_ne_of_firstTwoChars hdu hdi (by decide)
    · intro b hb
      simp only [List.mem_cons, List.not_mem_nil, or_false] at hb
      rcases hb with rfl
      exact reason_ne_of_firstTwoChars hfr hdi (by decide)

/-- Codec string accepted by the WebM check. -/
def codecVp9 : String := "vp9"

/-- A rejected codec string used in the witness. -/
def codecH264 : String := "h264"

/-- C3 witness: one concrete stream per failing check, each returning that
check's reason. -/
theorem c3_validateWebmFile_spec_witness :
    validateWebmFile 100 (some ⟨512, 512, codecH264, 1, 30, 1⟩) =
      .invalid reasonCodec
    ∧ validateWebmFile 300000 (some ⟨512, 512, codecVp9, 1, 30, 1⟩) =
      .invalid (reasonTooLarge 300000)
    ∧ validateWebmFile 100 (some ⟨512, 512, codecVp9, 4, 30, 1⟩) =
      .invalid (reasonDuration 4)
    ∧ validateWebmFile 100 (some ⟨512, 512, codecVp9, 1, 60, 1⟩) =
      .invalid (reasonFrameRate (webmFrameRate ⟨512, 512, codecVp9, 1, 60, 1⟩))
    ∧ validateWebmFile 100 (some ⟨513, 512, codecVp9, 1, 30, 1⟩) =
      .invalid (reasonDimensions 513 512) :=
  ⟨(c3_validateWebmFile_spec 100 ⟨512, 512, codecH264, 1, 30, 1⟩).2.1
      (by decide),
   (c3_validateWebmFile_spec 300000 ⟨512, 512, codecVp9, 1, 30, 1⟩).2.2.1
      (by decide) (by norm_num [WEBM_SIZE_LIMIT]),
   (c3_validateWebmFile_spec 100 ⟨512, 512, codecVp9, 4, 30, 1⟩).2.2.2.1
      (by decide) (by norm_num [WEBM_SIZE_LIMIT]) (by norm_num),
   (c3_validateWebmFile_spec 100 ⟨512, 512, codecVp9, 1, 60, 1⟩).2.2.2.2.1
      (by decide) (by norm_num [WEBM_SIZE_LIMIT]) (by norm_num)
      (by norm_num [webmFrameRate]),
   (c3_validateWebmFile_spec 100 ⟨513, 512, codecVp9, 1, 30, 1⟩).2.2.2.2.2.1
      (by decide) (by norm_num [WEBM_SIZE_LIMIT]) (by norm_num)
      (by norm_num [webmFrameRate]) (Or.inl (by norm_num))⟩

/-! ## imageProcessor.js : raster pipeline -/

/-- One RGBA pixel; alpha 0 is fully transparent. -/
structure RGBA where
  r : Nat
  g : Nat
  b : Nat
  a : Nat
deriving DecidableEq, Repr

/-- A decoded raster image: intrinsic dimensions plus pixel values (the
function is total; coordinates outside the canvas are irrelevant). -/
structure Image where
  width : Nat
  height : Nat
  pix : Nat → Nat → RGBA

/-- Model of the sharp resize call with fit: cover and
withoutEnlargement: false, whose documented output is exactly the requested
w x h box for every decodable input, scaling up when needed and cropping to
cover; resampling is stood in for by nearest-neighbour source sampling,
which the claims never inspect. -/
def sharpResizeCover (img : Image) (w h : Nat) : Image :=
  { width := w
    height := h
    pix := fun x y => img.pix (x * img.width / w) (y * img.height / h) }

/-- Model of the sharp extend call with top 0, left 0, right 0 and the given
bottom count: the canvas grows only downward and the new rows hold the
background colour. -/
def sharpExtendBottom (img : Image) (bottom : Nat) (background : RGBA) :
    Image :=
  { width := img.width
    height := img.height + bottom
    pix := fun x y => if y < img.height then img.pix x y else background }

/-- The options object handed to processImage. forceResize is carried by the
callers but processImage itself only logs it. -/
structure ProcessOptions where
  width : Option Nat
  height : Option Nat
  forceResize : Bool
  addBuffer : Bool
deriving DecidableEq, Repr

/-- The fully transparent background of the padding strip
(r 0, g 0, b 0, alpha 0). -/
def transparentBg : RGBA := ⟨0, 0, 0, 0⟩

/-- webp({ quality: 100, lossless: true }): a lossless re-encode keeps every
dimension and pixel, so it is the identity on the decoded image. -/
def webpLossless (img : Image) : Image := img

/-- processImage from imageProcessor.js, after download and metadata
validation: resize when options.width and options.height are both truthy
(a JS number is falsy exactly when it is 0), extend the bottom edge by 50
transparent rows when options.addBuffer is set, and re-encode losslessly. -/
def processImage (img : Image) (options : ProcessOptions) : Image :=
  let resized :=
    match options.width, options.height with
    | some w, some h => if w = 0 ∨ h = 0 then img else sharpResizeCover img w h
    | _, _ => img
  let extended :=
    if options.addBuffer then sharpExtendBottom resized 50 transparentBg
    else resized
  webpLossless extended

/-- The Sticker-profile options from messageHandlers.js:
width 512, height 462, addBuffer true. -/
def stickerOptions : ProcessOptions :=
  { width := some 512, height := some 462, forceResize := false,
    addBuffer := true }

/-- The Icon-profile options from messageHandlers.js:
width 100, height 100, forceResize true. -/
def iconOptions : ProcessOptions :=
  { width := some 100, height := some 100, forceResize := true,
    addBuffer := false }

/-- C1: for a decodable source with width at least height, the Sticker
profile first produces the 512-wide cover resize whose height is at most
462, then appends exactly 50 fully transparent rows on the bottom edge,
never altering the width. -/
theorem c1_processImage_sticker_spec (img : Image)
    (_hw : 0 < img.width) (_hh : 0 < img.height)
    (_hwh : img.height ≤ img.width) :
    (sharpResizeCover img 512 462).width = 512
    ∧ (sharpResizeCover img 512 462).height ≤ 462
    ∧ processImage img stickerOptions =
        sharpExtendBottom (sharpResizeCover img 512 462) 50 transparentBg
    ∧ (processImage img stickerOptions).width =
        (sharpResizeCover img 512 462).width
    ∧ (processImage img stickerOptions).height =
        (sharpResizeCover img 512 462).height + 50
    ∧ ∀ x y, (sharpResizeCover img 512 462).height ≤ y →
        y < (processImage img stickerOptions).height →
        ((processImage img stickerOptions).pix x y).a = 0 := by
  refine ⟨rfl, by norm_num [sharpResizeCover], rfl, rfl, rfl, ?_⟩
  intro x y hy _
  have : ¬ (y < (sharpResizeCover img 512 462).height) := not_lt.mpr hy
  simp [processImage, stickerOptions, sharpExtendBottom, webpLossless,
    transparentBg, this]

/-- C1 witness: a concrete 4 x 3 landscape image. -/
theorem c1_processImage_sticker_spec_witness :
    (sharpResizeCover ⟨4, 3, fun _ _ => ⟨1, 2, 3, 255⟩⟩ 512 462).width = 512
    ∧ (processImage ⟨4, 3, fun _ _ => ⟨1, 2, 3, 255⟩⟩ stickerOptions).height =
        (sharpResizeCover ⟨4, 3, fun _ _ => ⟨1, 2, 3, 255⟩⟩ 512 462).height
          + 50 :=
  ⟨(c1_processImage_sticker_spec ⟨4, 3, fun _ _ => ⟨1, 2, 3, 255⟩⟩
      (by decide) (by decide) (by decide)).1,
   (c1_processImage_sticker_spec ⟨4, 3, fun _ _ => ⟨1, 2, 3, 255⟩⟩
      (by decide) (by decide) (by decide)).2.2.2.2.1⟩

/-- C2: the Icon profile forces every decodable source, of any dimensions,
to exactly 100 x 100 (withoutEnlargement is false, so smaller sources are
upscaled too). -/
theorem c2_processImage_icon_spec (img : Image)
    (_hw : 0 < img.width) (_hh : 0 < img.height) :
    (processImage img iconOptions).width = 100
    ∧ (processImage img iconOptions).height = 100 :=
  ⟨rfl, rfl⟩

/-- C2 witness: a 3 x 2 image smaller than the target box is upscaled to
exactly 100 x 100. -/
theorem c2_processImage_icon_spec_witness :
    (processImage ⟨3, 2, fun _ _ => ⟨0, 0, 0, 255⟩⟩ iconOptions).width = 100
    ∧ (processImage ⟨3, 2, fun _ _ => ⟨0, 0, 0, 255⟩⟩ iconOptions).height
        = 100 :=
  c2_processImage_icon_spec ⟨3, 2, fun _ _ => ⟨0, 0, 0, 255⟩⟩
    (by decide) (by decide)

/-! ## imageProcessor.js : batch processing -/

/-- One attachment extracted by handlePhotoDocument: the Telegram file id
(possibly missing) and its reported byte size. -/
structure ImageRef where
  fileId : Option String
  fileSize : Nat
deriving DecidableEq, Repr

/-- Result record of processImages: processedFiles, failedFiles and
skippedThumbnails, as (fileId, filename) and (fileId, reason) pairs. -/
structure BatchResult where
  success : List (String × String)
  failures : List (String × String)
  skipped : List ImageRef
deriving DecidableEq, Repr

/-- Literal fileId placeholder the source pushes for a missing file_id. -/
def undefinedFileId : String := "undefined"

/-- Reason the source pushes for a missing file_id. -/
def missingFileIdReason : String := "Missing file_id"

/-- processImages from imageProcessor.js. The per-item work (processImage
followed by generateUniqueFilename and replyWithDocument) is the attempt
oracle: ok carries the generated filename, error the thrown message. Items
are walked in arrival order; an item without a fileId is pushed onto
failedFiles; a throw is caught and pushed onto failedFiles; nothing is ever
pushed onto skippedThumbnails. -/
def processImages (attempt : String → Except String String) :
    List ImageRef → BatchResult
  | [] => { success := [], failures := [], skipped := [] }
  | image :: rest =>
    let tail := processImages attempt rest
    match image.fileId with
    | none =>
      { tail with failures := (undefinedFileId, missingFileIdReason)
          :: tail.failures }
    | some fid =>
      match attempt fid with
      | .ok filename => { tail with success := (fid, filename) :: tail.success }
      | .error msg => { tail with failures := (fid, msg) :: tail.failures }

/-- Concrete small attachment for the counterexample. -/
def smallFileId : String := "small-photo"

/-- Filename returned by the conversion oracle in the counterexample. -/
def convertedName : String := "converted.webp"

/-- C9 counterexample: an attachment of 1000 bytes, far below one tenth of
the 50 MB ceiling (5242880 bytes), is not skipped: processImages converts
and replies to it, records it in success, and the skipped-thumbnails list
stays empty, contradicting the claim that such attachments are silently
skipped and counted in the skipped list. -/
theorem c9_processImages_counterexample :
    (1000 < 5242880 ∧
      processImages (fun _ => .ok convertedName)
          [{ fileId := some smallFileId, fileSize := 1000 }] =
        { success := [(smallFileId, convertedName)], failures := [],
          skipped := [] }) := by
  constructor
  · norm_num
  · rfl

/-- C9 amended: processImages performs no size-based skipping at all: for
every batch and every conversion outcome the skipped-thumbnails list comes
back empty, and every attachment is accounted for in success or failures
(those without a fileId land in failures), regardless of byte size. -/
theorem c9_processImages_no_thumbnail_skip
    (attempt : String → Except String String) (images : List ImageRef) :
    (processImages attempt images).skipped = []
    ∧ (processImages attempt images).success.length
        + (processImages attempt images).failures.length = images.length := by
  induction images with
  | nil => exact ⟨rfl, rfl⟩
  | cons image rest ih =>
    rcases hfid : image.fileId with _ | fid
    · refine ⟨?_, ?_⟩
      · simp [processImages, hfid, ih.1]
      · have h2 := ih.2
        simp only [processImages, hfid, List.length_cons]
        omega
    · rcases hat : attempt fid with msg | filename
      · refine ⟨?_, ?_⟩
        · simp [processImages, hfid, hat, ih.1]
        · have h2 := ih.2
          simp only [processImages, hfid, hat, List.length_cons]
          omega
      · refine ⟨?_, ?_⟩
        · simp [processImages, hfid, hat, ih.1]
        · have h2 := ih.2
          simp only [processImages, hfid, hat, List.length_cons]
          omega

/-! ## databaseManager.js : relational state and transactions -/

/-- Row of the users table. -/
structure UserRow where
  userId : Nat
  username : Option String
  firstName : Option String
  lastName : Option String
  createdAt : Nat
deriving DecidableEq, Repr

/-- Row of the sticker_packs table. -/
structure PackRow where
  id : String
  name : String
  title : String
  ownerId : Nat
  isAnimated : Bool
  isVideo : Bool
  createdAt : Nat
  lastModified : Nat
deriving DecidableEq, Repr

/-- Row of the stickers table. -/
structure StickerRow where
  id : String
  packId : String
  fileId : String
  emoji : String
  position : Nat
  type : String
  createdAt : Nat
deriving DecidableEq, Repr

/-- Row of the user_packs table. -/
structure UserPackRow where
  userId : Nat
  packId : String
  canEdit : Bool
  isFavorite : Bool
  addedAt : Nat
deriving DecidableEq, Repr

/-- The four tables created by initDatabase. -/
structure DBState where
  users : List UserRow
  packs : List PackRow
  stickers : List StickerRow
  userPacks : List UserPackRow
deriving DecidableEq, Repr

/-- A database computation: given a fault schedule (the index of the write
that fails, if any), a state and the number of writes already issued, it
either throws or returns the new state, the new write count and a value. -/
def DbM (α : Type) : Type :=
  Option Nat → DBState → Nat → Except String (DBState × Nat × α)

/-- Return for DbM. -/
def DbM.pure {α : Type} (a : α) : DbM α := fun _ db n => .ok (db, n, a)

/-- Sequencing for DbM: a thrown error propagates (no handler between the
statements of one compound operation). -/
def DbM.bind {α β : Type} (m : DbM α) (f : α → DbM β) : DbM β :=
  fun failAt db n =>
    match m failAt db n with
    | .ok (db1, n1, a) => f a failAt db1 n1
    | .error e => .error e

instance instMonadDbM : Monad DbM where
  pure := DbM.pure
  bind := DbM.bind

/-- Error message of an injected write failure. -/
def writeFailureMsg : String := "SQLITE_ERROR: write failed"

/-- db.run of a mutating statement: fails when the fault schedule names the
current write index, otherwise applies the write to the state. -/
def dbRun (write : DBState → DBState) : DbM Unit := fun failAt db n =>
  if failAt = some n then .error writeFailureMsg else .ok (write db, n + 1, ())

/-- db.get / db.all of a read-only query. -/
def dbGet {α : Type} (query : DBState → α) : DbM α :=
  fun _ db n => .ok (db, n, query db)

/-- withTransaction from databaseManager.js, with the BEGIN / COMMIT /
ROLLBACK semantics of the sqlite driver made explicit: the operation runs
against a working copy; COMMIT installs it; on a throw, ROLLBACK leaves the
pre-transaction state in place and the error is re-raised. The pair holds
the committed state and the outcome handed to the caller. -/
def withTransaction {α : Type} (operation : DbM α) (failAt : Option Nat)
    (db : DBState) : DBState × Except String α :=
  match operation failAt db 0 with
  | .ok (db1, _, a) => (db1, .ok a)
  | .error e => (db, .error e)

/-- SELECT * FROM users WHERE user_id = ?. -/
def findUserQ (userId : Nat) (db : DBState) : Option UserRow :=
  db.users.find? (fun u => u.userId == userId)

/-- SELECT * FROM sticker_packs WHERE name = ?. -/
def findPackByNameQ (packName : String) (db : DBState) : Option PackRow :=
  db.packs.find? (fun p => p.name == packName)

/-- SELECT * FROM sticker_packs WHERE id = ?. -/
def findPackByIdQ (packId : String) (db : DBState) : Option PackRow :=
  db.packs.find? (fun p => p.id == packId)

/-- SELECT * FROM user_packs WHERE user_id = ? AND pack_id = ?. -/
def findUserPackQ (userId : Nat) (packId : String) (db : DBState) :
    Option UserPackRow :=
  db.userPacks.find? (fun up => up.userId == userId && up.packId == packId)

/-- SELECT COUNT(*) FROM user_packs WHERE pack_id = ?. -/
def countPackMembersQ (packId : String) (db : DBState) : Nat :=
  (db.userPacks.filter (fun up => up.packId == packId)).length

/-- INSERT INTO users. -/
def insertUser (row : UserRow) (db : DBState) : DBState :=
  { db with users := db.users ++ [row] }

/-- INSERT INTO sticker_packs. -/
def insertPack (row : PackRow) (db : DBState) : DBState :=
  { db with packs := db.packs ++ [row] }

/-- INSERT INTO stickers. -/
def insertSticker (row : StickerRow) (db : DBState) : DBState :=
  { db with stickers := db.stickers ++ [row] }

/-- INSERT INTO user_packs. -/
def insertUserPack (row : UserPackRow) (db : DBState) : DBState :=
  { db with userPacks := db.userPacks ++ [row] }

/-- UPDATE sticker_packs SET last_modified = CURRENT_TIMESTAMP WHERE id = ?. -/
def touchPackLastModified (packId : String) (now : Nat) (db : DBState) :
    DBState :=
  { db with packs := db.packs.map fun p =>
      if p.id == packId then { p with lastModified := now } else p }

/-- DELETE FROM user_packs WHERE user_id = ? AND pack_id = ?. -/
def deleteUserPackRow (userId : Nat) (packId : String) (db : DBState) :
    DBState :=
  { db with userPacks := db.userPacks.filter fun up =>
      !(up.userId == userId && up.packId == packId) }

/-- DELETE FROM sticker_packs WHERE id = ?. initDatabase turns foreign keys
on and stickers and user_packs declare ON DELETE CASCADE on pack_id, so the
delete cascades to both tables. -/
def deletePackCascade (packId : String) (db : DBState) : DBState :=
  { db with
      packs := db.packs.filter (fun p => !(p.id == packId)),
      stickers := db.stickers.filter (fun s => !(s.packId == packId)),
      userPacks := db.userPacks.filter (fun up => !(up.packId == packId)) }

/-- addStickerPack from databaseManager.js (the operation run inside one
withTransaction): upsert the bare user row, return the existing pack id
after inserting the missing membership, or insert the new pack row (with
the generateRandomId result passed as newPackId) plus its membership. -/
def addStickerPack (userId : Nat) (packName packTitle : String)
    (canEdit : Bool) (newPackId : String) (now : Nat) : DbM String := do
  let user ← dbGet (findUserQ userId)
  if user.isNone then
    dbRun (insertUser
      { userId := userId, username := none,
        firstName := none, lastName := none, createdAt := now })
  let existingPack ← dbGet (findPackByNameQ packName)
  match existingPack with
  | some pack => do
    let userPack ← dbGet (findUserPackQ userId pack.id)
    if userPack.isNone then
      dbRun (insertUserPack
        { userId := userId, packId := pack.id,
          canEdit := canEdit, isFavorite := false, addedAt := now })
    pure pack.id
  | none => do
    dbRun (insertPack
      { id := newPackId, name := packName, title := packTitle,
        ownerId := userId, isAnimated := false, isVideo := false,
        createdAt := now, lastModified := now })
    dbRun (insertUserPack
      { userId := userId, packId := newPackId,
        canEdit := canEdit, isFavorite := false, addedAt := now })
    pure newPackId

/-- addStickerToDatabase from databaseManager.js (the operation run inside
one withTransaction): insert the sticker row, then bump the last_modified
timestamp of its pack. -/
def addStickerToDatabase (packId fileId emoji : String) (position : Nat)
    (stickerType : String) (newStickerId : String) (now : Nat) :
    DbM String := do
  dbRun (insertSticker
    { id := newStickerId, packId := packId,
      fileId := fileId, emoji := emoji, position := position,
      type := stickerType, createdAt := now })
  dbRun (touchPackLastModified packId now)
  pure newStickerId

/-- removeUserPack from databaseManager.js (the operation run inside one
withTransaction): delete the membership row; if no membership for the pack
remains, look the pack up and delete it (cascading) exactly when the row is
gone or its owner_id equals the removing user. -/
def removeUserPack (userId : Nat) (packId : String) : DbM Bool := do
  dbRun (deleteUserPackRow userId packId)
  let packUsersCount ← dbGet (countPackMembersQ packId)
  if packUsersCount == 0 then
    let pack ← dbGet (findPackByIdQ packId)
    match pack with
    | none => dbRun (deletePackCascade packId)
    | some p =>
      if p.ownerId == userId then dbRun (deletePackCascade packId)
      else pure ()
  pure true

lemma withTransaction_error_frame {α : Type} (operation : DbM α)
    (failAt : Option Nat) (db : DBState) (e : String)
    (h : (withTransaction operation failAt db).2 = .error e) :
    (withTransaction operation failAt db).1 = db := by
  unfold withTransaction at h ⊢
  rcases hop : operation failAt db 0 with e1 | ⟨db1, n1, a⟩
  · rfl
  · rw [hop] at h
    simp at h

/-- C5: each compound operation (pack creation with its membership insert;
sticker insert with the pack timestamp bump; membership delete with the
conditional pack delete) runs inside one withTransaction: whatever write
inside it fails, the error reaches the caller with the committed state
rolled back to exactly the pre-transaction state. -/
theorem c5_compound_ops_atomic (db : DBState) (failAt : Option Nat)
    (e : String) (userId : Nat) (packName packTitle : String)
    (canEdit : Bool) (newPackId : String) (now : Nat)
    (packId fileId emoji : String) (position : Nat)
    (stickerType newStickerId : String) :
    ((withTransaction
        (addStickerPack userId packName packTitle canEdit newPackId now)
        failAt db).2 = .error e →
      (withTransaction
        (addStickerPack userId packName packTitle canEdit newPackId now)
        failAt db).1 = db)
    ∧ ((withTransaction
        (addStickerToDatabase packId fileId emoji position stickerType
          newStickerId now) failAt db).2 = .error e →
      (withTransaction
        (addStickerToDatabase packId fileId emoji position stickerType
          newStickerId now) failAt db).1 = db)
    ∧ ((withTransaction (removeUserPack userId packId) failAt db).2 =
        .error e →
      (withTransaction (removeUserPack userId packId) failAt db).1 = db) :=
  ⟨withTransaction_error_frame _ failAt db e,
   withTransaction_error_frame _ failAt db e,
   withTransaction_error_frame _ failAt db e⟩

/-- Pack name used in the C5 witness. -/
def witnessPackName : String := "witnesspack"

/-- Pack title used in the C5 witness. -/
def witnessPackTitle : String := "Witness Pack"

/-- Generated pack id used in the C5 witness. -/
def witnessPackId : String := "pack_w1"

/-- The empty database, as right after initDatabase on a fresh file. -/
def emptyDb : DBState := { users := [], packs := [], stickers := [],
                           userPacks := [] }

/-- C5 witness: on an empty database, pack creation for a new user issues
the user insert (write 0), then the pack insert (write 1); injecting a
fault at write 1 makes the transaction fail after partially writing, and
the committed state keeps zero rows for the pack (and no user row either):
it equals the initial state, with the error re-raised. -/
theorem c5_compound_ops_atomic_witness :
    (withTransaction
      (addStickerPack 7 witnessPackName witnessPackTitle true witnessPackId 0)
      (some 1) emptyDb).2 = Except.error writeFailureMsg
    ∧ (withTransaction
      (addStickerPack 7 witnessPackName witnessPackTitle true witnessPackId 0)
      (some 1) emptyDb).1 = emptyDb :=
  ⟨by rfl,
   (c5_compound_ops_atomic emptyDb (some 1) writeFailureMsg 7 witnessPackName
     witnessPackTitle true witnessPackId 0 witnessPackId witnessPackId
     witnessPackId 0 witnessPackId witnessPackId).1 (by rfl)⟩

lemma insertUser_packs (u : UserRow) (db : DBState) :
    (insertUser u db).packs = db.packs := rfl

lemma insertUser_stickers (u : UserRow) (db : DBState) :
    (insertUser u db).stickers = db.stickers := rfl

lemma insertUser_userPacks (u : UserRow) (db : DBState) :
    (insertUser u db).userPacks = db.userPacks := rfl

lemma insertUserPack_packs (r : UserPackRow) (db : DBState) :
    (insertUserPack r db).packs = db.packs := rfl

lemma insertUserPack_stickers (r : UserPackRow) (db : DBState) :
    (insertUserPack r db).stickers = db.stickers := rfl

lemma insertUserPack_userPacks (r : UserPackRow) (db : DBState) :
    (insertUserPack r db).userPacks = db.userPacks ++ [r] := rfl

lemma insertPack_packs (r : PackRow) (db : DBState) :
    (insertPack r db).packs = db.packs ++ [r] := rfl

lemma insertPack_stickers (r : PackRow) (db : DBState) :
    (insertPack r db).stickers = db.stickers := rfl

lemma insertPack_userPacks (r : PackRow) (db : DBState) :
    (insertPack r db).userPacks = db.userPacks := rfl

lemma findPackByNameQ_insertUser (n : String) (u : UserRow) (db : DBState) :
    findPackByNameQ n (insertUser u db) = findPackByNameQ n db := rfl

lemma findUserPackQ_insertUser (uid : Nat) (pid : String) (u : UserRow)
    (db : DBState) :
    findUserPackQ uid pid (insertUser u db) = findUserPackQ uid pid db := rfl

/-- C10: when a pack named packName already exists, addStickerPack creates
no pack row and leaves the pack table (hence the existing owner_id and
title) untouched, returns the existing id, and inserts a membership row for
the caller exactly when none exists yet; and over both branches it
preserves the at-most-one-pack-row-per-name invariant. -/
theorem c10_addStickerPack_existing_frame (db : DBState) (userId : Nat)
    (packName packTitle : String) (canEdit : Bool) (newPackId : String)
    (now : Nat) :
    (∀ p, findPackByNameQ packName db = some p →
      (withTransaction
        (addStickerPack userId packName packTitle canEdit newPackId now)
        none db).2 = .ok p.id
      ∧ (withTransaction
        (addStickerPack userId packName packTitle canEdit newPackId now)
        none db).1.packs = db.packs
      ∧ (withTransaction
        (addStickerPack userId packName packTitle canEdit newPackId now)
        none db).1.stickers = db.stickers
      ∧ (findUserPackQ userId p.id db ≠ none →
          (withTransaction
            (addStickerPack userId packName packTitle canEdit newPackId now)
            none db).1.userPacks = db.userPacks)
      ∧ (findUserPackQ userId p.id db = none →
          (withTransaction
            (addStickerPack userId packName packTitle canEdit newPackId now)
            none db).1.userPacks = db.userPacks ++
              [{ userId := userId, packId := p.id, canEdit := canEdit,
                 isFavorite := false, addedAt := now }]))
    ∧ ((db.packs.map (fun p => p.name)).Nodup →
        (((withTransaction
            (addStickerPack userId packName packTitle canEdit newPackId now)
            none db).1.packs).map (fun p => p.name)).Nodup) := by
  constructor
  · intro p hfind
    rcases huser : findUserQ userId db with _ | u <;>
      rcases hup : findUserPackQ userId p.id db with _ | up <;>
      refine ⟨?_, ?_, ?_, ?_, ?_⟩ <;>
        simp [withTransaction, addStickerPack, instMonadDbM, DbM.bind,
          DbM.pure, dbGet, dbRun, huser, hfind, hup,
          findPackByNameQ_insertUser, findUserPackQ_insertUser,
          insertUser_packs, insertUser_stickers, insertUser_userPacks,
          insertUserPack_packs, insertUserPack_stickers,
          insertUserPack_userPacks]
  · intro hnodup
    rcases hfind : findPackByNameQ packName db with _ | p
    · have hnotin : ∀ q ∈ db.packs, q.name ≠ packName := by
        intro q hq
        have := List.find?_eq_none.mp hfind q hq
        simpa using this
      rcases huser : findUserQ userId db with _ | u <;>
        · have hpacks : (withTransaction
              (addStickerPack userId packName packTitle canEdit newPackId now)
              none db).1.packs = db.packs ++
                [{ id := newPackId, name := packName, title := packTitle,
                   ownerId := userId, isAnimated := false, isVideo := false,
                   createdAt := now, lastModified := now }] := by
            simp [withTransaction, addStickerPack, instMonadDbM, DbM.bind,
              DbM.pure, dbGet, dbRun, huser, hfind,
              findPackByNameQ_insertUser, insertUser_packs,
              insertPack_packs, insertUserPack_packs]
          rw [hpacks]
          rw [List.map_append]
          apply List.Nodup.append hnodup (by simp)
          intro a ha hb
          simp at hb
          rcases List.mem_map.mp ha with ⟨q, hq, hqa⟩
          exact hnotin q hq (by rw [← hb, ← hqa])
    · rcases huser : findUserQ userId db with _ | u <;>
        rcases hup : findUserPackQ userId p.id db with _ | up <;>
        · have hpacks : (withTransaction
              (addStickerPack userId packName packTitle canEdit newPackId now)
              none db).1.packs = db.packs := by
            simp [withTransaction, addStickerPack, instMonadDbM, DbM.bind,
              DbM.pure, dbGet, dbRun, huser, hfind, hup,
              findPackByNameQ_insertUser, findUserPackQ_insertUser,
              insertUser_packs, insertUserPack_packs]
          rw [hpacks]
          exact hnodup

/-- Existing pack row used in the C10 witness. -/
def w10Pack : PackRow :=
  { id := "pack_x", name := "wpack", title := "W", ownerId := 3,
    isAnimated := false, isVideo := false, createdAt := 0,
    lastModified := 0 }

/-- Name of the existing pack used in the C10 witness. -/
def w10PackName : String := "wpack"

/-- Unused fresh pack id handed to the C10 witness run. -/
def w10NewId : String := "pack_y"

/-- Database holding the existing pack for the C10 witness. -/
def w10Db : DBState :=
  { users := [], packs := [w10Pack], stickers := [], userPacks := [] }

/-- C10 witness: a second user joining the existing pack gets the existing
id back, the pack table stays untouched, a single membership row is added,
and pack names stay duplicate-free. -/
theorem c10_addStickerPack_existing_frame_witness :
    (withTransaction
      (addStickerPack 9 w10PackName witnessPackTitle true w10NewId 5)
      none w10Db).2 = .ok w10Pack.id
    ∧ (withTransaction
      (addStickerPack 9 w10PackName witnessPackTitle true w10NewId 5)
      none w10Db).1.packs = w10Db.packs
    ∧ (withTransaction
      (addStickerPack 9 w10PackName witnessPackTitle true w10NewId 5)
      none w10Db).1.userPacks = w10Db.userPacks ++
        [{ userId := 9, packId := w10Pack.id, canEdit := true,
           isFavorite := false, addedAt := 5 }]
    ∧ (((withTransaction
      (addStickerPack 9 w10PackName witnessPackTitle true w10NewId 5)
      none w10Db).1.packs).map (fun p => p.name)).Nodup := by
  have h := c10_addStickerPack_existing_frame w10Db 9 w10PackName
    witnessPackTitle true w10NewId 5
  have h1 := h.1 w10Pack (by rfl)
  exact ⟨h1.1, h1.2.1, h1.2.2.2.2 (by rfl), h.2 (by simp [w10Db, w10Pack])⟩

lemma deleteUserPackRow_packs (uid : Nat) (pid : String) (db : DBState) :
    (deleteUserPackRow uid pid db).packs = db.packs := rfl

lemma deleteUserPackRow_stickers (uid : Nat) (pid : String) (db : DBState) :
    (deleteUserPackRow uid pid db).stickers = db.stickers := rfl

lemma deletePackCascade_packs (pid : String) (db : DBState) :
    (deletePackCascade pid db).packs =
      db.packs.filter (fun p => !(p.id == pid)) := rfl

lemma deletePackCascade_stickers (pid : String) (db : DBState) :
    (deletePackCascade pid db).stickers =
      db.stickers.filter (fun s => !(s.packId == pid)) := rfl

lemma findPackByIdQ_deleteUserPackRow (pid : String) (uid : Nat)
    (pid2 : String) (db : DBState) :
    findPackByIdQ pid (deleteUserPackRow uid pid2 db) =
      findPackByIdQ pid db := rfl

lemma removeUserPack_run_notlast (db : DBState) (userId : Nat)
    (packId : String)
    (hcnt : ¬ countPackMembersQ packId (deleteUserPackRow userId packId db)
      = 0) :
    withTransaction (removeUserPack userId packId) none db =
      (deleteUserPackRow userId packId db, .ok true) := by
  simp [withTransaction, removeUserPack, instMonadDbM, DbM.bind,
    DbM.pure, dbGet, dbRun, hcnt]

lemma removeUserPack_run_gone (db : DBState) (userId : Nat)
    (packId : String)
    (hcnt : countPackMembersQ packId (deleteUserPackRow userId packId db)
      = 0)
    (hpack : findPackByIdQ packId db = none) :
    withTransaction (removeUserPack userId packId) none db =
      (deletePackCascade packId (deleteUserPackRow userId packId db),
       .ok true) := by
  simp [withTransaction, removeUserPack, instMonadDbM, DbM.bind,
    DbM.pure, dbGet, dbRun, hcnt, findPackByIdQ_deleteUserPackRow, hpack]

lemma removeUserPack_run_owner (db : DBState) (userId : Nat)
    (packId : String) (p : PackRow)
    (hcnt : countPackMembersQ packId (deleteUserPackRow userId packId db)
      = 0)
    (hpack : findPackByIdQ packId db = some p)
    (howner : p.ownerId = userId) :
    withTransaction (removeUserPack userId packId) none db =
      (deletePackCascade packId (deleteUserPackRow userId packId db),
       .ok true) := by
  simp [withTransaction, removeUserPack, instMonadDbM, DbM.bind,
    DbM.pure, dbGet, dbRun, hcnt, findPackByIdQ_deleteUserPackRow, hpack,
    howner]

lemma removeUserPack_run_other (db : DBState) (userId : Nat)
    (packId : String) (p : PackRow)
    (hcnt : countPackMembersQ packId (deleteUserPackRow userId packId db)
      = 0)
    (hpack : findPackByIdQ packId db = some p)
    (howner : ¬ p.ownerId = userId) :
    withTransaction (removeUserPack userId packId) none db =
      (deleteUserPackRow userId packId db, .ok true) := by
  simp [withTransaction, removeUserPack, instMonadDbM, DbM.bind,
    DbM.pure, dbGet, dbRun, hcnt, findPackByIdQ_deleteUserPackRow, hpack,
    howner]

/-- Pack row of the C6 counterexample, owned by user 1. -/
def c6Pack : PackRow :=
  { id := "pack_c6", name := "cpack", title := "C", ownerId := 1,
    isAnimated := false, isVideo := false, createdAt := 0,
    lastModified := 0 }

/-- Pack id of the C6 counterexample. -/
def c6PackId : String := "pack_c6"

/-- Sticker row of the C6 counterexample pack. -/
def c6Sticker : StickerRow :=
  { id := "st_1", packId := "pack_c6", fileId := "file1", emoji := "e",
    position := 0, type := "static", createdAt := 0 }

/-- C6 counterexample database: user 2 holds the only membership of the
pack owned by user 1. -/
def c6Db : DBState :=
  { users := [{ userId := 1, username := none, firstName := none,
                lastName := none, createdAt := 0 },
              { userId := 2, username := none, firstName := none,
                lastName := none, createdAt := 0 }],
    packs := [c6Pack],
    stickers := [c6Sticker],
    userPacks := [{ userId := 2, packId := "pack_c6", canEdit := false,
                    isFavorite := false, addedAt := 0 }] }

/-- C6 counterexample: user 2 is not the owner of the pack and removes the
last membership, yet removeUserPack keeps the pack row and its sticker row
(the guard deletes only when the remover is the recorded owner or the pack
row is absent), contradicting the claim that the pack is deleted and its
stickers cascade-deleted. -/
theorem c6_removeUserPack_counterexample :
    c6Pack.ownerId ≠ 2
    ∧ (withTransaction (removeUserPack 2 c6PackId) none c6Db).1.userPacks = []
    ∧ countPackMembersQ c6PackId
        (withTransaction (removeUserPack 2 c6PackId) none c6Db).1 = 0
    ∧ (withTransaction (removeUserPack 2 c6PackId) none c6Db).1.packs =
        [c6Pack]
    ∧ (withTransaction (removeUserPack 2 c6PackId) none c6Db).1.stickers =
        [c6Sticker]
    ∧ (withTransaction (removeUserPack 2 c6PackId) none c6Db).2 =
        .ok true := by
  refine ⟨by decide, by rfl, by rfl, by rfl, by rfl, by rfl⟩

/-- C6 amended: removing a membership via removeUserPack always reports
success; a removal that leaves other memberships behind keeps the pack row
and every sticker row; a removal that leaves zero memberships deletes the
pack row and cascade-deletes its sticker rows exactly when the remover is
the recorded owner or the pack row is already absent, and keeps both
untouched when someone else owns the pack. -/
theorem c6_removeUserPack_amended (db : DBState) (userId : Nat)
    (packId : String) :
    (withTransaction (removeUserPack userId packId) none db).2 = .ok true
    ∧ (countPackMembersQ packId (deleteUserPackRow userId packId db) ≠ 0 →
        (withTransaction (removeUserPack userId packId) none db).1.packs =
          db.packs
        ∧ (withTransaction (removeUserPack userId packId) none db).1.stickers
          = db.stickers
        ∧ (withTransaction (removeUserPack userId packId) none db).1.userPacks
          = (deleteUserPackRow userId packId db).userPacks)
    ∧ (countPackMembersQ packId (deleteUserPackRow userId packId db) = 0 →
        (∀ p, findPackByIdQ packId db = some p → p.ownerId ≠ userId →
          (withTransaction (removeUserPack userId packId) none db).1.packs =
            db.packs
          ∧ (withTransaction
              (removeUserPack userId packId) none db).1.stickers =
            db.stickers)
        ∧ (∀ p, findPackByIdQ packId db = some p → p.ownerId = userId →
          (withTransaction (removeUserPack userId packId) none db).1.packs =
            db.packs.filter (fun q => !(q.id == packId))
          ∧ (withTransaction
              (removeUserPack userId packId) none db).1.stickers =
            db.stickers.filter (fun s => !(s.packId == packId)))
        ∧ (findPackByIdQ packId db = none →
          (withTransaction (removeUserPack userId packId) none db).1.packs =
            db.packs.filter (fun q => !(q.id == packId))
          ∧ (withTransaction
              (removeUserPack userId packId) none db).1.stickers =
            db.stickers.filter (fun s => !(s.packId == packId)))) := by
  by_cases hcnt :
      countPackMembersQ packId (deleteUserPackRow userId packId db) = 0
  · rcases hpack : findPackByIdQ packId db with _ | p
    · rw [removeUserPack_run_gone db userId packId hcnt hpack]
      refine ⟨rfl, fun h => absurd hcnt h,
        fun _ => ⟨?_, ?_, fun _ => ⟨?_, ?_⟩⟩⟩
      · intro q hq _
        cases hq
      · intro q hq _
        cases hq
      · simp [deletePackCascade_packs, deleteUserPackRow_packs]
      · simp [deletePackCascade_stickers, deleteUserPackRow_stickers]
    · by_cases howner : p.ownerId = userId
      · rw [removeUserPack_run_owner db userId packId p hcnt hpack howner]
        refine ⟨rfl, fun h => absurd hcnt h, fun _ => ⟨?_, ?_, ?_⟩⟩
        · intro q hq hqo
          injection hq with hq2
          subst hq2
          exact absurd howner hqo
        · intro q hq _
          exact ⟨by simp [deletePackCascade_packs, deleteUserPackRow_packs],
                 by simp [deletePackCascade_stickers,
                   deleteUserPackRow_stickers]⟩
        · intro h
          cases h
      · rw [removeUserPack_run_other db userId packId p hcnt hpack howner]
        refine ⟨rfl, fun h => absurd hcnt h, fun _ => ⟨?_, ?_, ?_⟩⟩
        · intro q hq _
          exact ⟨deleteUserPackRow_packs _ _ _,
                 deleteUserPackRow_stickers _ _ _⟩
        · intro q hq hqo
          injection hq with hq2
          subst hq2
          exact absurd hqo howner
        · intro h
          cases h
  · rw [removeUserPack_run_notlast db userId packId hcnt]
    exact ⟨rfl,
      fun _ => ⟨deleteUserPackRow_packs _ _ _,
        deleteUserPackRow_stickers _ _ _, rfl⟩,
      fun h => absurd h hcnt⟩

/-- Database for the C6 witness, non-last case: two memberships. -/
def c6wDb : DBState :=
  { users := [{ userId := 1, username := none, firstName := none,
                lastName := none, createdAt := 0 },
              { userId := 2, username := none, firstName := none,
                lastName := none, createdAt := 0 }],
    packs := [c6Pack],
    stickers := [c6Sticker],
    userPacks := [{ userId := 1, packId := "pack_c6", canEdit := true,
                    isFavorite := false, addedAt := 0 },
                  { userId := 2, packId := "pack_c6", canEdit := false,
                    isFavorite := false, addedAt := 0 }] }

/-- Database for the C6 witness, owner-removes-last case. -/
def c6oDb : DBState :=
  { users := [{ userId := 1, username := none, firstName := none,
                lastName := none, createdAt := 0 }],
    packs := [c6Pack],
    stickers := [c6Sticker],
    userPacks := [{ userId := 1, packId := "pack_c6", canEdit := true,
                    isFavorite := false, addedAt := 0 }] }

/-- C6 witness: a non-last removal keeps the pack; the owner removing the
last membership deletes the pack and its stickers; the call reports true. -/
theorem c6_removeUserPack_amended_witness :
    (withTransaction (removeUserPack 2 c6PackId) none c6wDb).1.packs =
      c6wDb.packs
    ∧ (withTransaction (removeUserPack 1 c6PackId) none c6oDb).1.packs = []
    ∧ (withTransaction (removeUserPack 1 c6PackId) none c6oDb).1.stickers = []
    ∧ (withTransaction (removeUserPack 2 c6PackId) none c6wDb).2 =
        .ok true := by
  have h1 := (c6_removeUserPack_amended c6wDb 2 c6PackId).2.1 (by decide)
  have h2 := (c6_removeUserPack_amended c6oDb 1 c6PackId).2.2 (by decide)
  have h3 := h2.2.1 c6Pack (by rfl) (by decide)
  exact ⟨h1.1, h3.1.trans (by decide), h3.2.trans (by decide),
    (c6_removeUserPack_amended c6wDb 2 c6PackId).1⟩

/-! ## sessionManager.js : session map and sweep -/

/-- One per-chat session object, as built by getSession. Staged images are
carried by filename; the timestamp field is milliseconds since the epoch
(a JS Date value). -/
structure BotSession where
  lastAction : Option String
  images : List String
  messageId : Option Nat
  timestamp : Int
  mode : Option String
deriving DecidableEq, Repr

/-- The six-hour inactivity threshold, in milliseconds. -/
def SESSION_TIMEOUT_MS : Int := 21600000

/-- now - session.timestamp > 21600000, the sweep condition. -/
def sessionExpired (now : Int) (s : BotSession) : Bool :=
  decide (SESSION_TIMEOUT_MS < now - s.timestamp)

/-- getSession from sessionManager.js over an explicit session map: create
the entry lazily with a fresh object, then set its timestamp to now on
every access, and return the stored object. -/
def getSession (chatId : Nat) (now : Int)
    (sessions : List (Nat × BotSession)) :
    BotSession × List (Nat × BotSession) :=
  match sessions.find? (fun e => e.1 == chatId) with
  | none =>
    let s : BotSession :=
      { lastAction := none, images := [], messageId := none,
        timestamp := now, mode := none }
    (s, sessions ++ [(chatId, s)])
  | some e =>
    let s := { e.2 with timestamp := now }
    (s, sessions.map (fun e2 => if e2.1 == chatId then (e2.1, s) else e2))

/-- purgeSessions from sessionManager.js: every session whose inactivity
exceeds the threshold is dropped from the map and each file it staged is
unlinked from the temp directory (the existsSync guard makes the unlink a
no-op for files already absent, which the filter models). -/
def purgeSessions (now : Int) (sessions : List (Nat × BotSession))
    (files : List String) :
    List (Nat × BotSession) × List String :=
  (sessions.filter (fun e => !(sessionExpired now e.2)),
   files.filter (fun f =>
     !((sessions.filter (fun e => sessionExpired now e.2)).any
        (fun e => e.2.images.contains f))))

/-- C8: the sweep drops a session exactly when its last activity lies more
than six hours back, deleting every file that session staged, and keeps
every session inside the window; getSession stores and returns the session
with its timestamp refreshed to the access time. -/
theorem c8_session_sweep_spec (now : Int)
    (sessions : List (Nat × BotSession)) (files : List String)
    (chatId : Nat) (s : BotSession) (f : String) :
    ((chatId, s) ∈ (purgeSessions now sessions files).1 ↔
      (chatId, s) ∈ sessions ∧ ¬ (SESSION_TIMEOUT_MS < now - s.timestamp))
    ∧ ((chatId, s) ∈ sessions → SESSION_TIMEOUT_MS < now - s.timestamp →
        f ∈ s.images → f ∉ (purgeSessions now sessions files).2)
    ∧ (getSession chatId now sessions).1.timestamp = now
    ∧ (chatId, (getSession chatId now sessions).1) ∈
        (getSession chatId now sessions).2 := by
  refine ⟨?_, ?_, ?_, ?_⟩
  · constructor
    · intro hmem
      have h := List.mem_filter.mp hmem
      refine ⟨h.1, ?_⟩
      have hb := h.2
      simp [sessionExpired] at hb
      omega
    · intro h
      have h2 := h.2
      exact List.mem_filter.mpr ⟨h.1, by simp [sessionExpired]; omega⟩
  · intro hmem hexp hf hcontra
    have h := List.mem_filter.mp hcontra
    have hb := h.2
    have hany : ((sessions.filter (fun e => sessionExpired now e.2)).any
        (fun e => e.2.images.contains f)) = true := by
      apply List.any_eq_true.mpr
      refine ⟨(chatId, s), List.mem_filter.mpr ⟨hmem, ?_⟩, ?_⟩
      · simp [sessionExpired]
        exact hexp
      · simp
        exact hf
    rw [hany] at hb
    simp at hb
  · rcases hfind : sessions.find? (fun e => e.1 == chatId) with _ | e
    · simp [getSession, hfind]
    · simp [getSession, hfind]
  · rcases hfind : sessions.find? (fun e => e.1 == chatId) with _ | e
    · simp [getSession, hfind]
    · have hmem : e ∈ sessions := List.mem_of_find?_eq_some hfind
      have hkey := List.find?_some hfind
      have hkey2 : e.1 = chatId := by simpa using hkey
      simp only [getSession, hfind]
      apply List.mem_map.mpr
      refine ⟨e, hmem, ?_⟩
      rw [if_pos hkey]
      rw [hkey2]

/-- Staged file of the expired witness session. -/
def fileA : String := "sticker-1-a.webp"

/-- Staged file of the fresh witness session. -/
def fileB : String := "sticker-2-b.webp"

/-- An expired session: last activity at time 0, one staged file. -/
def c8Expired : BotSession :=
  { lastAction := none, images := [fileA], messageId := none,
    timestamp := 0, mode := none }

/-- A fresh session: active within the six-hour window. -/
def c8Fresh : BotSession :=
  { lastAction := none, images := [fileB], messageId := none,
    timestamp := 29000000, mode := none }

/-- Session map of the C8 witness. -/
def c8Sessions : List (Nat × BotSession) := [(1, c8Expired), (2, c8Fresh)]

/-- Temp directory contents of the C8 witness. -/
def c8Files : List String := [fileA, fileB]

/-- C8 witness: at sweep time 30000000 the expired session is removed and
its staged file deleted, the fresh session survives, and an access
refreshes the timestamp. -/
theorem c8_session_sweep_spec_witness :
    (2, c8Fresh) ∈ (purgeSessions 30000000 c8Sessions c8Files).1
    ∧ (1, c8Expired) ∉ (purgeSessions 30000000 c8Sessions c8Files).1
    ∧ fileA ∉ (purgeSessions 30000000 c8Sessions c8Files).2
    ∧ (getSession 1 30000000 c8Sessions).1.timestamp = 30000000 :=
  ⟨(c8_session_sweep_spec 30000000 c8Sessions c8Files 2 c8Fresh fileA).1.mpr
      ⟨by decide, by decide⟩,
   fun hmem => absurd
     (((c8_session_sweep_spec 30000000 c8Sessions c8Files 1 c8Expired
         fileA).1.mp hmem).2) (by decide),
   (c8_session_sweep_spec 30000000 c8Sessions c8Files 1 c8Expired
     fileA).2.1 (by decide) (by decide) (by decide),
   (c8_session_sweep_spec 30000000 c8Sessions c8Files 1 c8Expired
     fileA).2.2.1⟩
